/-
Verification of the yt-dlp wrapper's download orchestration, command
building, platform classification and premium-format selection, as a
shallow embedding of src/yt-dlp-wrapper.py.

The external downloader process is modelled as an oracle assigning an
outcome (exit 0, failure with optional diagnostic text, or timeout) to
each successive invocation; auxiliary queries (the -F format listing,
the metadata probe's output directory) are fields of the environment.
All definitions are transcribed from the Python source; Python
truthiness of optional strings and integers is modelled explicitly.
-/

import Mathlib

set_option maxRecDepth 20000

/-! ## String primitives (model Python `in`, `startswith`, `lower`, `str`) -/

/-- Boolean test that the first list is a prefix of the second
(models Python `str.startswith` after `toList`). -/
def prefixMatch : List Char → List Char → Bool
  | [], _ => true
  | _ :: _, [] => false
  | a :: as, b :: bs => a == b && prefixMatch as bs

/-- Boolean substring containment of `needle` in `hay`
(models Python `needle in hay`). -/
def containsSub : List Char → List Char → Bool
  | [], needle => needle.isEmpty
  | h :: t, needle => prefixMatch needle (h :: t) || containsSub t needle

/-- Python `needle in hay` on strings. -/
def strContains (hay needle : String) : Bool :=
  containsSub hay.toList needle.toList

/-- Python `s.startswith(p)`. -/
def strStartsWith (s p : String) : Bool :=
  prefixMatch p.toList s.toList

/-- Python `s.lower()` (ASCII, which covers every string the program builds). -/
def lowerStr (s : String) : String :=
  String.mk (s.toList.map Char.toLower)

/-- The decimal digit character for `n % 10`-style arguments. -/
def digitChar : Nat → Char
  | 0 => '0'
  | 1 => '1'
  | 2 => '2'
  | 3 => '3'
  | 4 => '4'
  | 5 => '5'
  | 6 => '6'
  | 7 => '7'
  | 8 => '8'
  | _ => '9'

/-- Accumulates the decimal digits of `n` (least significant first pushed),
with explicit fuel for structural recursion. -/
def natDigitsAux : Nat → Nat → List Char → List Char
  | 0, _, acc => acc
  | fuel + 1, n, acc =>
    let acc := digitChar (n % 10) :: acc
    if n < 10 then acc else natDigitsAux fuel (n / 10) acc

/-- Python `str(n)` for a natural number. -/
def natRepr (n : Nat) : String :=
  String.mk (natDigitsAux (n + 1) n [])

/-- The characters matched by the regex class `\s` (ASCII). -/
def isSpaceChar (c : Char) : Bool :=
  c == ' ' || c == '\t' || c == '\n' || c == '\r' || c == '\x0b' || c == '\x0c'

/-- Maximal digit run at the head of the list, and the rest. -/
def digitRun : List Char → List Char × List Char
  | [] => ([], [])
  | c :: t =>
    if c.isDigit then
      let p := digitRun t
      (c :: p.1, p.2)
    else ([], c :: t)

/-- Numeric value of a digit string (models Python `int` on a `\d+` group). -/
def natOfDigits (ds : List Char) : Nat :=
  ds.foldl (fun n c => 10 * n + (c.toNat - 48)) 0

/-- Python `text.split(chr(10))`: split on newline, keeping empty pieces. -/
def splitLines : List Char → List (List Char)
  | [] => [[]]
  | c :: t =>
    let r := splitLines t
    if c == '\n' then [] :: r
    else
      match r with
      | [] => [[c]]
      | h :: rt => (c :: h) :: rt

/-! ## Configuration constants (lines 24-47 of the source) -/

/-- The static quality-descending format selector chain
(`DEFAULT_FORMAT_SELECTOR`, lines 24-30). -/
def DEFAULT_FORMAT_SELECTOR : String :=
  "bestvideo[height<=2160][vcodec~='^(av01|vp9|avc1)']+bestaudio/" ++
  "bestvideo[height<=1440][vcodec~='^(av01|vp9|avc1)']+bestaudio/" ++
  "bestvideo[height<=1080][vcodec~='^(av01|vp9|avc1)']+bestaudio/" ++
  "bestvideo[height<=720][vcodec~='^(av01|vp9|avc1)']+bestaudio/" ++
  "best[ext=mp4]/best"

/-- The fixed ordered client-emulation profile list (`YOUTUBE_CLIENTS`,
lines 33-41). -/
def YOUTUBE_CLIENTS : List String :=
  ["web", "android", "tv", "tv_downgraded", "mweb", "web_music", "android_music"]

/-- The platform table (`SUPPORTED_PLATFORMS`, lines 43-47), in the
source's insertion order, which is the dict's iteration order. -/
def SUPPORTED_PLATFORMS : List (String × List String) :=
  [("youtube", ["youtube.com", "youtu.be"]),
   ("x", ["twitter.com", "x.com"]),
   ("other", [])]

/-- Every domain fragment of the platform table. -/
def ALL_DOMAINS : List String :=
  ["youtube.com", "youtu.be", "twitter.com", "x.com"]

/-- The diagnostic phrases classified as a token requirement (lines 453-454). -/
def PO_PHRASES : List String :=
  ["PO Token", "po_token", "requires a GVS PO Token"]

/-- The diagnostic phrases classified as a streaming (SABR) restriction
(lines 488-491). -/
def SABR_PHRASES : List String :=
  ["web client https formats require a GVS PO Token",
   "YouTube is forcing SABR streaming",
   "only SABR formats"]

/-! ## Platform classifier (`detect_platform`, lines 242-248) -/

/-- Lowercase the URL and return the first platform one of whose domain
fragments occurs in it; `other` when none matches. -/
def detect_platform (url : String) : String :=
  let url_lower := lowerStr url
  match SUPPORTED_PLATFORMS.find? (fun p => p.2.any (fun d => strContains url_lower d)) with
  | some p => p.1
  | none => "other"

/-! ## Premium format selection (`check_premium_formats`, lines 276-311) -/

/-- The regex `^(\d+)\s+` applied to a listing line: the maximal digit
prefix when it is nonempty and followed by a whitespace character. -/
def idMatch (l : List Char) : Option String :=
  let p := digitRun l
  if p.1.isEmpty then none
  else
    match p.2 with
    | c :: _ => if isSpaceChar c then some (String.mk p.1) else none
    | [] => none

/-- Attempt of the regex `(\d+)x(\d+)` at the head of the list, returning
the second group's value. Because a maximal digit run followed by anything
but `x` cannot be shortened into a match, this equals the regex engine's
backtracking result at this position. -/
def resMatchAt (l : List Char) : Option Nat :=
  let p := digitRun l
  if p.1.isEmpty then none
  else
    match p.2 with
    | 'x' :: r2 =>
      let q := digitRun r2
      if q.1.isEmpty then none else some (natOfDigits q.1)
    | _ => none

/-- Leftmost search of `(\d+)x(\d+)` (Python `re.search`), second group. -/
def resSearch : List Char → Option Nat
  | [] => none
  | c :: t =>
    match resMatchAt (c :: t) with
    | some h => some h
    | none => resSearch t

/-- Height parsed from a listing line: the resolution match's second group,
`0` when the line has no resolution (lines 299-300). -/
def heightOf (line : List Char) : Nat :=
  (resSearch line).getD 0

/-- One iteration of the scan over listing lines (lines 290-304): skip
unmarked lines, keep the entry with the greatest height so far. -/
def premiumStep (st : Option String × Nat) (line : List Char) : Option String × Nat :=
  if !(containsSub line "Premium".toList) then st
  else
    match idMatch line with
    | none => st
    | some fid => if heightOf line > st.2 then (some fid, heightOf line) else st

/-- `check_premium_formats` (lines 276-311) applied to the `-F` query's
result `(success, output)`: the best Premium format's selector, or `none`
when the query failed, produced no output, or no marked line was retained. -/
def check_premium_formats (res : Bool × String) : Option String :=
  if !res.1 || res.2 == "" then none
  else
    match ((splitLines res.2.toList).foldl premiumStep (none, 0)).1 with
    | none => none
    | some fid => if fid == "" then none else some (fid ++ "+bestaudio/best")

/-! ## Data model -/

/-- Outcome of one external-process invocation (exit 0 / non-zero with the
captured error stream / wall-clock timeout). -/
inductive AttemptOutcome
  | success
  | failed (stderr : Option String)
  | timeout
deriving DecidableEq

/-- The parameters of `download_video` (lines 313-325). `Option` fields
model Python `None`; truthiness of optional strings and of the sleep
interval is applied where the source tests them. -/
structure Args where
  url : String
  extraArgs : List String
  formatSelector : Option String
  youtubeClient : Option String
  trySabr : Bool
  tryFallbackClients : Bool
  preferPremium : Bool
  sponsorblockMark : Option String
  sponsorblockRemove : Option String
  embedChapters : Bool
  sleepInterval : Option Nat
  potProviderMode : Option String
  potProviderUrl : Option String
  potProviderScript : Option String
deriving DecidableEq

/-- One issued download attempt: the command it ran, the client profile and
streaming-mode flag of the request that built it, and the outcome. -/
structure AttemptRecord where
  cmd : List String
  client : Option String
  trySabr : Bool
  outcome : AttemptOutcome
deriving DecidableEq

/-- The execution environment: the per-invocation outcome oracle for the
external downloader, the `-F` format listing query's result, and the
output-location and cookie-browser collaborators. -/
structure Env where
  oracle : Nat → AttemptOutcome
  formatListing : Bool × String
  outputDir : String
  cookiesBrowser : String

/-! ## Format resolution (lines 341-348) -/

/-- Python truthiness of an optional string (`None` and the empty string
are falsy). -/
def strTruthy : Option String → Bool
  | none => false
  | some s => !(s == "")

/-- Python truthiness of the optional sleep interval. -/
def natTruthy : Option Nat → Bool
  | none => false
  | some n => !(n == 0)

/-- Lines 341-348: on a youtube request with premium preference and no
truthy explicit selector, adopt the best Premium format when one is found;
then replace `None` (and only `None`) by the static default chain. -/
def resolve_format (platform : String) (preferPremium : Bool)
    (format_selector : Option String) (env : Env) : String :=
  let format_selector :=
    if platform == "youtube" && preferPremium && !(strTruthy format_selector) then
      match check_premium_formats env.formatListing with
      | some p => if p == "" then format_selector else some p
      | none => format_selector
    else format_selector
  match format_selector with
  | none => DEFAULT_FORMAT_SELECTOR
  | some s => s

/-! ## Command builder (lines 360-440) -/

/-- Lines 404-408: rewrite the first token starting with
`youtube:player-client=` by appending `;<formats_arg>`; no change when no
token matches (the loop's `break` pattern). -/
def updateFirstPlayerClient : List String → String → List String
  | [], _ => []
  | a :: t, formats_arg =>
    if strStartsWith a "youtube:player-client=" then
      (a ++ ";" ++ formats_arg) :: t
    else a :: updateFirstPlayerClient t formats_arg

/-- Lines 424-428: index of the first token preceded by `--extractor-args`
and containing `youtube` (the scan requires `i > 0`). -/
def findYtArgIdx : List String → Option Nat
  | [] => none
  | [_] => none
  | a :: b :: t =>
    if a == "--extractor-args" && strContains b "youtube" then some 1
    else
      match findYtArgIdx (b :: t) with
      | some i => some (i + 1)
      | none => none

/-- The command assembly of `download_video` (lines 360-440): base flags,
conditional chapter flag, youtube-only SponsorBlock flags, the sleep
interval (not platform-gated in the source), the youtube extractor-argument
block (client profile, SABR formats toggle, PO-token provider clauses),
then the pass-through arguments and the URL. -/
def build_command (env : Env) (args : Args) (format_selector : String) : List String :=
  let platform := detect_platform args.url
  let base_cmd : List String :=
    ["yt-dlp",
     "--cookies-from-browser", env.cookiesBrowser,
     "-f", format_selector,
     "--write-auto-sub",
     "--sub-lang", "en.*",
     "--convert-subs", "srt",
     "--ignore-errors",
     "-P", env.outputDir,
     "--no-mtime",
     "--embed-metadata"]
  let base_cmd := if args.embedChapters then base_cmd ++ ["--embed-chapters"] else base_cmd
  let base_cmd :=
    if platform == "youtube" then
      let base_cmd :=
        match args.sponsorblockMark with
        | some m => if m == "" then base_cmd else base_cmd ++ ["--sponsorblock-mark", m]
        | none => base_cmd
      match args.sponsorblockRemove with
      | some m => if m == "" then base_cmd else base_cmd ++ ["--sponsorblock-remove", m]
      | none => base_cmd
    else base_cmd
  let base_cmd :=
    match args.sleepInterval with
    | some n => if n == 0 then base_cmd else base_cmd ++ ["--sleep-interval", natRepr n]
    | none => base_cmd
  let base_cmd :=
    if platform == "youtube" then
      let base_cmd :=
        match args.youtubeClient with
        | some c =>
          if c == "" then base_cmd
          else base_cmd ++ ["--extractor-args", "youtube:player-client=" ++ c]
        | none => base_cmd
      let base_cmd :=
        if args.trySabr then
          let formats_arg := "youtube:formats=duplicate"
          if base_cmd.any (fun a => strStartsWith a "--extractor-args") then
            updateFirstPlayerClient base_cmd formats_arg
          else base_cmd ++ ["--extractor-args", formats_arg]
        else base_cmd
      let pot_args : List String :=
        (match args.potProviderUrl with
         | some u => if u == "" then [] else ["youtubepot-bgutilhttp:base_url=" ++ u]
         | none => []) ++
        (match args.potProviderScript with
         | some p => if p == "" then [] else ["youtubepot-bgutilscript:script_path=" ++ p]
         | none => [])
      if pot_args.isEmpty then base_cmd
      else
        let existing_yt_args := findYtArgIdx base_cmd
        pot_args.foldl
          (fun cmd pot_arg =>
            match existing_yt_args with
            | some i => cmd.set i (cmd.getD i "" ++ ";" ++ pot_arg)
            | none => cmd ++ ["--extractor-args", pot_arg])
          base_cmd
    else base_cmd
  base_cmd ++ args.extraArgs ++ [args.url]

/-- Number of occurrences of a token in a command. -/
def countTok (t : String) (l : List String) : Nat :=
  l.countP (fun a => a == t)

/-! ## Failure classification (lines 449-494) -/

/-- Lines 453-454: youtube-gated scan of the diagnostic text for the
token-requirement phrases. -/
def po_token_check (platform error_output : String) : Bool :=
  platform == "youtube" && PO_PHRASES.any (fun p => strContains error_output p)

/-- Lines 488-491: youtube-gated scan of the diagnostic text for the
streaming-restriction (SABR) phrases. -/
def sabr_check (platform error_output : String) : Bool :=
  platform == "youtube" && SABR_PHRASES.any (fun p => strContains error_output p)

/-! ## Orchestrator (`download_video`, lines 313-550) -/

/-- Python truthiness of the optional client identifier (line 497's
`not youtube_client`). -/
def clientTruthy : Option String → Bool
  | none => false
  | some c => !(c == "")

/-- Line 532's `youtube_client or 'web'`. -/
def clientOrWeb : Option String → String
  | none => "web"
  | some c => if c == "" then "web" else c

/-- Lines 503 and 526: drop the tokens containing the substring
`--extractor-args` from a pass-through argument list (a containment test,
so value tokens of a flag survive). -/
def filter_extractor_args (ea : List String) : List String :=
  ea.filter (fun a => !(strContains a "--extractor-args"))

/-- Line 498: every fixed client except the one just tried (`c != None`
holds for every string, so a request without a client keeps all seven). -/
def available_clients : Option String → List String
  | none => YOUTUBE_CLIENTS
  | some y => YOUTUBE_CLIENTS.filter (fun c => !(c == y))

/-- The derived request of one fallback-loop iteration (lines 506-520):
the filtered pass-through arguments, the resolved selector, the loop's
client, SABR off, fallback off, and the other parameters passed through
(`prefer_premium` reverts to its default `true`). -/
def nestedClientArgs (args : Args) (fmt : String) (filtered : List String)
    (c : String) : Args :=
  { url := args.url
    extraArgs := filtered
    formatSelector := some fmt
    youtubeClient := some c
    trySabr := false
    tryFallbackClients := false
    preferPremium := true
    sponsorblockMark := args.sponsorblockMark
    sponsorblockRemove := args.sponsorblockRemove
    embedChapters := args.embedChapters
    sleepInterval := args.sleepInterval
    potProviderMode := args.potProviderMode
    potProviderUrl := args.potProviderUrl
    potProviderScript := args.potProviderScript }

/-- The derived request of the final streaming-mode attempt (lines
528-542): SABR on, client defaulted to `web`, fallback off. -/
def sabrRetryArgs (args : Args) (fmt : String) (filtered : List String) : Args :=
  { url := args.url
    extraArgs := filtered
    formatSelector := some fmt
    youtubeClient := some (clientOrWeb args.youtubeClient)
    trySabr := true
    tryFallbackClients := false
    preferPremium := true
    sponsorblockMark := args.sponsorblockMark
    sponsorblockRemove := args.sponsorblockRemove
    embedChapters := args.embedChapters
    sleepInterval := args.sleepInterval
    potProviderMode := args.potProviderMode
    potProviderUrl := args.potProviderUrl
    potProviderScript := args.potProviderScript }

/-- `download_video` as behaved on every nested (fallback-disabled) call:
one attempt, whose command and outcome are recorded, with no retry. Every
recursive call of the source passes `try_fallback_clients=False`, so this
is the complete behaviour of recursion depth one
(`download_video_flag_false` below proves the agreement). `k` indexes the
environment's outcome oracle. -/
def download_video_nf (env : Env) (args : Args) (k : Nat) : Bool × List AttemptRecord :=
  let platform := detect_platform args.url
  let fmt := resolve_format platform args.preferPremium args.formatSelector env
  let cmd := build_command env args fmt
  let att : AttemptRecord :=
    { cmd := cmd, client := args.youtubeClient, trySabr := args.trySabr,
      outcome := env.oracle k }
  match env.oracle k with
  | .success => (true, [att])
  | .failed _ => (false, [att])
  | .timeout => (false, [att])

/-- The fallback loop over client profiles (lines 500-521): one nested
attempt per client, short-circuiting on the first success. -/
def try_clients (env : Env) (args : Args) (fmt : String) (filtered : List String) :
    List String → Nat → Bool × List AttemptRecord
  | [], _ => (false, [])
  | c :: rest, k =>
    let r := download_video_nf env (nestedClientArgs args fmt filtered c) k
    if r.1 then (true, r.2)
    else
      let r2 := try_clients env args fmt filtered rest (k + r.2.length)
      (r2.1, r.2 ++ r2.2)

/-- `download_video` (lines 313-550): resolve the platform and format,
build and run the command; on failure classify the diagnostic text and,
when the platform is youtube, fallback is enabled, and the failure is
streaming-restricted or no client was requested, retry each remaining
client profile with fallback forced off, then make the single
streaming-mode retry when the classification was streaming-restricted and
streaming mode was not already on. Returns the overall outcome and the
attempts issued, in order. -/
def download_video (env : Env) (args : Args) (k : Nat) : Bool × List AttemptRecord :=
  let platform := detect_platform args.url
  let fmt := resolve_format platform args.preferPremium args.formatSelector env
  let cmd := build_command env args fmt
  let att : AttemptRecord :=
    { cmd := cmd, client := args.youtubeClient, trySabr := args.trySabr,
      outcome := env.oracle k }
  match env.oracle k with
  | .success => (true, [att])
  | .timeout => (false, [att])
  | .failed stderr =>
    let error_output := stderr.getD ""
    let sabr_related := sabr_check platform error_output
    if platform == "youtube" && args.tryFallbackClients
        && (sabr_related || !(clientTruthy args.youtubeClient)) then
      let filtered := filter_extractor_args args.extraArgs
      let r := try_clients env args fmt filtered (available_clients args.youtubeClient) (k + 1)
      if r.1 then (true, att :: r.2)
      else if sabr_related && !args.trySabr then
        let r2 := download_video_nf env (sabrRetryArgs args fmt filtered) (k + 1 + r.2.length)
        (r2.1, att :: r.2 ++ r2.2)
      else (false, att :: r.2)
    else (false, [att])

/-! ## PO-token provider validation and the entry point -/

/-- `_validate_pot_provider` (lines 149-187), with the plugin and server
probes as inputs: every branch of the source returns `None`. -/
def validate_pot_provider (plugin_installed server_running : Bool) (url : String)
    (pot_provider_mode : Option String) : Option String :=
  if !(detect_platform url == "youtube") then none
  else if !plugin_installed then none
  else if pot_provider_mode == some "script" then none
  else if server_running then none
  else none

/-- The host facts `_validate_dependencies` (lines 66-78) checks. -/
structure SysEnv where
  pythonVersionOk : Bool
  ytDlpFound : Bool
deriving DecidableEq

/-- `_validate_dependencies`: an error when the runtime version is below
the minimum or the downloader executable is not on the search path (the
browser probe only warns). -/
def validate_dependencies (s : SysEnv) : Except String Unit :=
  if !s.pythonVersionOk then .error "Python 3.10+ required"
  else if !s.ytDlpFound then .error "yt-dlp not found. Install with: uv pip install -U yt-dlp"
  else .ok ()

/-- `main` (lines 603-632): constructing the downloader runs the
dependency check; its error is caught and turns into exit code 1 with no
download attempt; otherwise the orchestration's outcome decides the exit
code. Returns (exit code, number of download attempts issued). -/
def main_run (s : SysEnv) (env : Env) (args : Args) : Nat × Nat :=
  match validate_dependencies s with
  | .error _ => (1, 0)
  | .ok _ =>
    let r := download_video env args 0
    (if r.1 then 0 else 1, r.2.length)

/-! ## Concrete fixtures for the scenario claims -/

/-- A benign environment whose downloader always succeeds. -/
def env0 : Env :=
  { oracle := fun _ => AttemptOutcome.success
    formatListing := (true, "")
    outputDir := "/downloads"
    cookiesBrowser := "firefox" }

/-- An environment where every invocation fails as streaming-restricted. -/
def envSabrFail : Env :=
  { env0 with oracle := fun _ => AttemptOutcome.failed (some "only SABR formats") }

/-- An environment whose first invocation fails requiring a token and
whose later invocations succeed. -/
def envPoThenOk : Env :=
  { env0 with oracle := fun n =>
      if n == 0 then AttemptOutcome.failed (some "requires a GVS PO Token")
      else AttemptOutcome.success }

/-- An environment whose first invocation fails as streaming-restricted
and whose later invocations succeed. -/
def envSabrThenOk : Env :=
  { env0 with oracle := fun n =>
      if n == 0 then AttemptOutcome.failed (some "only SABR formats")
      else AttemptOutcome.success }

/-- A youtube request with fallback enabled, no client profile, and an
explicit selector (so no listing query is involved). -/
def baseArgs : Args :=
  { url := "https://youtu.be/abc123"
    extraArgs := []
    formatSelector := some "best"
    youtubeClient := none
    trySabr := false
    tryFallbackClients := true
    preferPremium := false
    sponsorblockMark := none
    sponsorblockRemove := none
    embedChapters := false
    sleepInterval := none
    potProviderMode := none
    potProviderUrl := none
    potProviderScript := none }

/-- The request of claim C2's failing combination: both token-provider
overrides set, no client profile, streaming mode off. -/
def c2Args : Args :=
  { baseArgs with
    potProviderUrl := some "http://127.0.0.1:4416"
    potProviderScript := some "/opt/pot.js" }

/-- The request of claim C4's failing input: the caller's pass-through
arguments hold an extractor-argument flag and its value token. -/
def c4Args : Args :=
  { baseArgs with extraArgs := ["--extractor-args", "youtube:player-client=ios"] }

/-- A non-youtube request exercising claim C5's toggles. -/
def c5Args : Args :=
  { baseArgs with
    url := "https://x.com/user/status/1"
    sponsorblockMark := some "sponsor"
    sponsorblockRemove := some "selfpromo"
    sleepInterval := some 5 }

/-- A listing with two Premium lines, the claim C7 scenario's `137` line
having the greater height. -/
def envPremium : Env :=
  { env0 with formatListing :=
      (true, "ID  EXT RESOLUTION\n616  1280x720 mp4 720p Premium\n137  1920x1080 mp4 1080p Premium\n") }

/-- An environment whose listing query failed. -/
def envNoListing : Env :=
  { env0 with formatListing := (false, "") }

/-! ## General lemmas about the embedding -/

/-- The classifier in closed form: the platform table's iteration order
makes youtube's fragments shadow x's. -/
theorem detect_platform_eq (u : String) :
    detect_platform u =
      if strContains (lowerStr u) "youtube.com" || strContains (lowerStr u) "youtu.be" then
        "youtube"
      else if strContains (lowerStr u) "twitter.com" || strContains (lowerStr u) "x.com" then
        "x"
      else "other" := by
  cases h1 : strContains (lowerStr u) "youtube.com" <;>
    cases h2 : strContains (lowerStr u) "youtu.be" <;>
      cases h3 : strContains (lowerStr u) "twitter.com" <;>
        cases h4 : strContains (lowerStr u) "x.com" <;>
          simp [detect_platform, SUPPORTED_PLATFORMS, List.find?, h1, h2, h3, h4]

/-- Every character the decimal formatter produces is a digit character,
or came from the accumulator. -/
theorem natDigitsAux_digits (fuel : Nat) :
    ∀ (n : Nat) (acc : List Char), ∀ c ∈ natDigitsAux fuel n acc,
      (∃ m, c = digitChar m) ∨ c ∈ acc := by
  induction fuel with
  | zero => intro n acc c hc; exact Or.inr hc
  | succ f ih =>
    intro n acc c hc
    simp only [natDigitsAux] at hc
    split at hc
    · rcases List.mem_cons.mp hc with rfl | h
      · exact Or.inl ⟨n % 10, rfl⟩
      · exact Or.inr h
    · rcases ih (n / 10) (digitChar (n % 10) :: acc) c hc with h | h
      · exact Or.inl h
      · rcases List.mem_cons.mp h with rfl | h
        · exact Or.inl ⟨n % 10, rfl⟩
        · exact Or.inr h

/-- No digit character is a dash. -/
theorem digitChar_ne_dash : ∀ m : Nat, ¬ digitChar m = '-' := by
  intro m
  match m with
  | 0 | 1 | 2 | 3 | 4 | 5 | 6 | 7 | 8 => decide
  | n + 9 =>
    have h9 : digitChar (n + 9) = '9' := rfl
    rw [h9]; decide

/-- `str(n)` never equals a string starting with a dash, so the sleep
interval's value token never collides with a flag token. -/
theorem natRepr_ne_dash (n : Nat) (s : String) (hs : s.data.head? = some '-') :
    ¬ natRepr n = s := by
  intro h
  have hd : '-' ∈ (natRepr n).data := by
    rw [h]
    cases hsd : s.data with
    | nil => rw [hsd] at hs; exact absurd hs (by simp)
    | cons a t =>
      rw [hsd] at hs
      have ha : a = '-' := by simpa using hs
      exact ha ▸ List.mem_cons_self a t
  have hmem : '-' ∈ natDigitsAux (n + 1) n [] := hd
  rcases natDigitsAux_digits (n + 1) n [] '-' hmem with ⟨m, hm⟩ | h2
  · exact digitChar_ne_dash m hm.symm
  · exact absurd h2 (List.not_mem_nil _)

/-- A nested (fallback-disabled) call issues exactly one attempt. -/
theorem download_video_nf_length (env : Env) (a : Args) (k : Nat) :
    (download_video_nf env a k).2.length = 1 := by
  unfold download_video_nf
  cases h : env.oracle k <;> simp [h]

/-- Fidelity of the split into `download_video` and `download_video_nf`:
with fallback disabled the orchestrator is the single-attempt function, so
modelling the source's recursive calls (which all disable fallback) by
`download_video_nf` is exact. -/
theorem download_video_flag_false (env : Env) (a : Args) (k : Nat)
    (h : a.tryFallbackClients = false) :
    download_video env a k = download_video_nf env a k := by
  unfold download_video download_video_nf
  cases ho : env.oracle k <;> simp [ho, h]

/-- The fallback loop issues at most one attempt per remaining client. -/
theorem try_clients_length_le (env : Env) (a : Args) (fmt : String)
    (filtered : List String) (cs : List String) (k : Nat) :
    (try_clients env a fmt filtered cs k).2.length ≤ cs.length := by
  induction cs generalizing k with
  | nil => simp [try_clients]
  | cons c rest ih =>
    simp only [try_clients]
    split
    · simp [download_video_nf_length]
    · have h2 := ih (k + (download_video_nf env (nestedClientArgs a fmt filtered c) k).2.length)
      simp only [download_video_nf_length] at h2
      simp only [List.length_cons, List.length_append, download_video_nf_length]
      omega

/-- Excluding the tried client never lengthens the profile list. -/
theorem available_clients_length_le (yc : Option String) :
    (available_clients yc).length ≤ YOUTUBE_CLIENTS.length := by
  cases yc with
  | none => exact Nat.le_refl _
  | some y => exact List.length_filter_le _ _

/-! ## Claim C1: bounded retry depth -/

/-- C1 (amended): for every environment, request and oracle position, the
orchestrator issues at most `|client profiles| + 2` download attempts —
one initial attempt, at most one per profile in the fallback loop, and the
single streaming-mode retry — because fallback is forced off on every
recursive retry, so recursion never exceeds depth one. -/
theorem c1_attempts_le (env : Env) (args : Args) (k : Nat) :
    (download_video env args k).2.length ≤ YOUTUBE_CLIENTS.length + 2 := by
  unfold download_video
  cases ho : env.oracle k <;> simp only [ho]
  case success => simp
  case timeout => simp
  case failed stderr =>
    split
    · have h1 := try_clients_length_le env args
        (resolve_format (detect_platform args.url) args.preferPremium args.formatSelector env)
        (filter_extractor_args args.extraArgs) (available_clients args.youtubeClient) (k + 1)
      have h2 := available_clients_length_le args.youtubeClient
      split
      · simp only [List.length_cons]
        omega
      · split
        · simp only [List.length_cons, List.length_append, download_video_nf_length]
          omega
        · simp only [List.length_cons]
          omega
    · simp

/-- C1 counterexample: with no client profile specified, fallback enabled
and every attempt failing as streaming-restricted, the orchestrator issues
nine attempts — the claimed bound `|client profiles| + 1 = 8` is exceeded
(the initial attempt, all seven profiles, and the streaming-mode retry). -/
theorem c1_counterexample :
    ¬ ((download_video envSabrFail baseArgs 0).2.length ≤ YOUTUBE_CLIENTS.length + 1) := by
  decide

/-! ## Claim C2: extractor-argument merging -/

/-- C2: with a client profile or the streaming-mode clause present, the
token-provider clauses are merged into the single semicolon-joined
extractor-argument value; but when both token-provider overrides are
supplied with no client profile and streaming mode off, the builder emits
the extractor-argument flag twice (the merge index is computed once,
before the first clause is appended), contradicting the claim. -/
theorem c2_theorem :
    countTok "--extractor-args" (build_command env0 c2Args "best") = 2 ∧
    countTok "--extractor-args"
      (build_command env0 { c2Args with youtubeClient := some "android" } "best") = 1 ∧
    "youtube:player-client=android;youtubepot-bgutilhttp:base_url=http://127.0.0.1:4416;youtubepot-bgutilscript:script_path=/opt/pot.js"
      ∈ build_command env0 { c2Args with youtubeClient := some "android" } "best" ∧
    countTok "--extractor-args"
      (build_command env0 { c2Args with trySabr := true } "best") = 1 := by
  refine ⟨by decide, by decide, by decide, by decide⟩

/-! ## Claim C3: token-required scenario -/

/-- C3 (amended): a first attempt failing with diagnostic text containing
`requires a GVS PO Token`, fallback enabled and no client specified, is
classified as token-required (and not as streaming-restricted); the
orchestrator's next attempt uses the client profile `web` — the FIRST
entry of the fixed client list, since a request without a client excludes
no entry — and the orchestration returns success when that attempt exits
zero, after exactly two attempts. -/
theorem c3_amended :
    po_token_check "youtube" "requires a GVS PO Token" = true ∧
    sabr_check "youtube" "requires a GVS PO Token" = false ∧
    (download_video envPoThenOk baseArgs 0).1 = true ∧
    (download_video envPoThenOk baseArgs 0).2.length = 2 ∧
    ((download_video envPoThenOk baseArgs 0).2.map (fun r => r.client)).get? 1
      = some (some "web") := by
  refine ⟨by decide, by decide, by decide, by decide, by decide⟩

/-- C3 counterexample: in that scenario the second attempt's client
profile is `web`, not `android` as the claim states. -/
theorem c3_counterexample :
    ((download_video envPoThenOk baseArgs 0).2.map (fun r => r.client)).get? 1
        ≠ some (some "android") ∧
    ((download_video envPoThenOk baseArgs 0).2.map (fun r => r.client)).get? 1
        = some (some "web") := by
  refine ⟨by decide, by decide⟩

/-! ## Claim C4: stripping extractor arguments from nested attempts -/

/-- C4: the source filters the caller's pass-through arguments with a
substring test on each single token, so the extractor-argument FLAG token
is removed but its VALUE token survives and is passed into the nested
attempt's command — the nested attempt's argument list is not free of
extractor-argument tokens, although the source's own comment says the
nested arguments are built "without any existing YouTube client or format
settings". -/
theorem c4_theorem :
    filter_extractor_args ["--extractor-args", "youtube:player-client=ios"]
        = ["youtube:player-client=ios"] ∧
    "youtube:player-client=ios"
      ∈ ((download_video envSabrThenOk c4Args 0).2.map (fun r => r.cmd)).getD 1 [] := by
  refine ⟨by decide, by decide⟩

/-! ## Claim C8: classifier determinism -/

/-- C8 (amended): platform classification is a pure function of which
recognized domain fragments occur in the lowercased URL — so it is
invariant under letter casing, and returns `other` when no fragment
matches; equality of query strings is NOT required for equal tags only
when the query string leaves the set of matching fragments unchanged. -/
theorem c8_amended :
    (∀ u v : String, lowerStr u = lowerStr v → detect_platform u = detect_platform v) ∧
    (∀ u v : String,
        (∀ d ∈ ALL_DOMAINS, strContains (lowerStr u) d = strContains (lowerStr v) d) →
        detect_platform u = detect_platform v) ∧
    (∀ u : String, (∀ d ∈ ALL_DOMAINS, strContains (lowerStr u) d = false) →
        detect_platform u = "other") := by
  refine ⟨?_, ?_, ?_⟩
  · intro u v h
    unfold detect_platform
    rw [h]
  · intro u v h
    have h1 := h "youtube.com" (by simp [ALL_DOMAINS])
    have h2 := h "youtu.be" (by simp [ALL_DOMAINS])
    have h3 := h "twitter.com" (by simp [ALL_DOMAINS])
    have h4 := h "x.com" (by simp [ALL_DOMAINS])
    rw [detect_platform_eq u, detect_platform_eq v, h1, h2, h3, h4]
  · intro u h
    have h1 := h "youtube.com" (by simp [ALL_DOMAINS])
    have h2 := h "youtu.be" (by simp [ALL_DOMAINS])
    have h3 := h "twitter.com" (by simp [ALL_DOMAINS])
    have h4 := h "x.com" (by simp [ALL_DOMAINS])
    rw [detect_platform_eq u, h1, h2, h3, h4]
    simp

/-- C8 witness: the amended theorem applied at concrete URLs — a cased
youtube URL classifies like its lowercase form, and an unrecognized URL
classifies as `other`. -/
theorem c8_witness :
    detect_platform "HTTPS://YouTube.com/Watch?v=Id"
        = detect_platform "https://youtube.com/watch?v=id" ∧
    detect_platform "https://example.org/video" = "other" :=
  ⟨c8_amended.1 _ _ (by decide), c8_amended.2.2 _ (by decide)⟩

/-- C8 counterexample: two URLs both containing the recognized fragment
`x.com` and differing only in the query string classify differently,
because the query string introduces the earlier-priority fragment
`youtube.com` — query-string independence fails as stated. -/
theorem c8_counterexample :
    strContains (lowerStr "https://x.com/a") "x.com" = true ∧
    strContains (lowerStr "https://x.com/a?ref=youtube.com") "x.com" = true ∧
    detect_platform "https://x.com/a"
        ≠ detect_platform "https://x.com/a?ref=youtube.com" := by
  refine ⟨by decide, by decide, by decide⟩

/-! ## Claim C9: fatal dependency check -/

/-- C9: when the dependency check fails — the downloader executable is not
resolvable or the runtime version is below the minimum — constructing the
downloader raises the wrapper error, the invocation exits with code 1, and
zero download attempts are issued. -/
theorem c9_theorem (s : SysEnv) (env : Env) (args : Args)
    (h : s.pythonVersionOk = false ∨ s.ytDlpFound = false) :
    (∃ msg, validate_dependencies s = Except.error msg) ∧
    main_run s env args = (1, 0) := by
  rcases h with h | h
  · exact ⟨⟨"Python 3.10+ required", by simp [validate_dependencies, h]⟩, by
      simp [main_run, validate_dependencies, h]⟩
  · cases hp : s.pythonVersionOk
    · exact ⟨⟨"Python 3.10+ required", by simp [validate_dependencies, hp]⟩, by
        simp [main_run, validate_dependencies, hp]⟩
    · exact ⟨⟨"yt-dlp not found. Install with: uv pip install -U yt-dlp",
        by simp [validate_dependencies, hp, h]⟩, by
          simp [main_run, validate_dependencies, hp, h]⟩

/-- C9 witness: with the downloader missing from the search path the run
reports exit code 1 and zero attempts. -/
theorem c9_witness :
    (∃ msg, validate_dependencies ⟨true, false⟩ = Except.error msg) ∧
    main_run ⟨true, false⟩ env0 baseArgs = (1, 0) :=
  c9_theorem ⟨true, false⟩ env0 baseArgs (Or.inr rfl)

/-! ## Claim C5: platform gating of content-filter and rate-limit flags -/

/-- C5 (amended): for a request whose platform is not youtube, the built
command never contains the SponsorBlock mark/remove flags, whatever those
options hold; the rate-limit flag, however, is NOT platform-gated in the
source — it appears exactly when a nonzero sleep interval is supplied, on
every platform. (The URL and selector hypotheses only rule out the tokens
colliding with the flag strings themselves.) -/
theorem c5_amended (a : Args) (fmt : String)
    (hplat : ¬ detect_platform a.url = "youtube")
    (hex : a.extraArgs = [])
    (hu1 : ¬ a.url = "--sponsorblock-mark")
    (hu2 : ¬ a.url = "--sponsorblock-remove")
    (hu3 : ¬ a.url = "--sleep-interval")
    (hf1 : ¬ fmt = "--sponsorblock-mark")
    (hf2 : ¬ fmt = "--sponsorblock-remove")
    (hf3 : ¬ fmt = "--sleep-interval") :
    countTok "--sponsorblock-mark" (build_command env0 a fmt) = 0 ∧
    countTok "--sponsorblock-remove" (build_command env0 a fmt) = 0 ∧
    countTok "--sleep-interval" (build_command env0 a fmt)
      = (if natTruthy a.sleepInterval then 1 else 0) := by
  have hb : (detect_platform a.url == "youtube") = false := beq_eq_false_iff_ne.mpr hplat
  have hbu1 : (a.url == "--sponsorblock-mark") = false := beq_eq_false_iff_ne.mpr hu1
  have hbu2 : (a.url == "--sponsorblock-remove") = false := beq_eq_false_iff_ne.mpr hu2
  have hbu3 : (a.url == "--sleep-interval") = false := beq_eq_false_iff_ne.mpr hu3
  have hbf1 : (fmt == "--sponsorblock-mark") = false := beq_eq_false_iff_ne.mpr hf1
  have hbf2 : (fmt == "--sponsorblock-remove") = false := beq_eq_false_iff_ne.mpr hf2
  have hbf3 : (fmt == "--sleep-interval") = false := beq_eq_false_iff_ne.mpr hf3
  cases hch : a.embedChapters <;> rcases hsl : a.sleepInterval with _ | (_ | m) <;>
    simp only [build_command, countTok, env0, hb, hex, hch, hsl, natTruthy, Bool.false_eq_true,
      if_false, if_true, ite_false, ite_true]
  all_goals
    first
    | (simp [List.countP_append, List.countP_cons, List.countP_nil, hbu1, hbu2, hbu3,
        hbf1, hbf2, hbf3, hu1, hu2, hu3, hf1, hf2, hf3,
        natRepr_ne_dash (m + 1) "--sponsorblock-mark" (by decide),
        natRepr_ne_dash (m + 1) "--sponsorblock-remove" (by decide),
        natRepr_ne_dash (m + 1) "--sleep-interval" (by decide),
        beq_eq_false_iff_ne.mpr (natRepr_ne_dash (m + 1) "--sleep-interval" (by decide))])
    | (simp [List.countP_append, List.countP_cons, List.countP_nil, hbu1, hbu2, hbu3,
        hbf1, hbf2, hbf3, hu1, hu2, hu3, hf1, hf2, hf3])

/-- C5 witness: a concrete non-youtube request with SponsorBlock
categories and a sleep interval supplied yields no SponsorBlock flag and
exactly one rate-limit flag. -/
theorem c5_witness :
    countTok "--sponsorblock-mark" (build_command env0 c5Args "best") = 0 ∧
    countTok "--sponsorblock-remove" (build_command env0 c5Args "best") = 0 ∧
    countTok "--sleep-interval" (build_command env0 c5Args "best")
      = (if natTruthy c5Args.sleepInterval then 1 else 0) :=
  c5_amended c5Args "best" (by decide) (by decide) (by decide) (by decide) (by decide)
    (by decide) (by decide) (by decide)

/-- C5 counterexample: a non-youtube request with a sleep interval
supplied does carry the rate-limit flag, contradicting the claim that the
flag is appended only when the platform is youtube. -/
theorem c5_counterexample :
    detect_platform "https://x.com/user/status/1" = "x" ∧
    "--sleep-interval" ∈ build_command env0 c5Args "best" := by
  refine ⟨by decide, by decide⟩

/-! ## Claim C6: the terminal streaming-mode retry -/

/-- C6: when a youtube attempt with fallback enabled and streaming mode
not already on fails with a streaming-restricted classification and every
client-profile retry fails, the orchestrator makes exactly one further
nested attempt — whose request has streaming mode forced on, the client
profile defaulted to `web` when none was specified, and fallback forced
off — and returns that attempt's result directly, with no further
retries. -/
theorem c6_theorem (env : Env) (args : Args) (k : Nat) (txt : String)
    (hplat : detect_platform args.url = "youtube")
    (hfb : args.tryFallbackClients = true)
    (hns : args.trySabr = false)
    (hout : env.oracle k = AttemptOutcome.failed (some txt))
    (hsabr : sabr_check "youtube" txt = true)
    (hfail : (try_clients env args
        (resolve_format "youtube" args.preferPremium args.formatSelector env)
        (filter_extractor_args args.extraArgs)
        (available_clients args.youtubeClient) (k + 1)).1 = false) :
    (download_video env args k).1
      = (download_video_nf env
          (sabrRetryArgs args
            (resolve_format "youtube" args.preferPremium args.formatSelector env)
            (filter_extractor_args args.extraArgs))
          (k + 1 + (try_clients env args
              (resolve_format "youtube" args.preferPremium args.formatSelector env)
              (filter_extractor_args args.extraArgs)
              (available_clients args.youtubeClient) (k + 1)).2.length)).1 ∧
    (download_video env args k).2.length
      = 1 + (try_clients env args
          (resolve_format "youtube" args.preferPremium args.formatSelector env)
          (filter_extractor_args args.extraArgs)
          (available_clients args.youtubeClient) (k + 1)).2.length + 1 ∧
    (sabrRetryArgs args
        (resolve_format "youtube" args.preferPremium args.formatSelector env)
        (filter_extractor_args args.extraArgs)).trySabr = true ∧
    (sabrRetryArgs args
        (resolve_format "youtube" args.preferPremium args.formatSelector env)
        (filter_extractor_args args.extraArgs)).tryFallbackClients = false ∧
    (sabrRetryArgs args
        (resolve_format "youtube" args.preferPremium args.formatSelector env)
        (filter_extractor_args args.extraArgs)).youtubeClient
      = some (clientOrWeb args.youtubeClient) := by
  have hmain : download_video env args k
      = ((download_video_nf env
            (sabrRetryArgs args
              (resolve_format "youtube" args.preferPremium args.formatSelector env)
              (filter_extractor_args args.extraArgs))
            (k + 1 + (try_clients env args
                (resolve_format "youtube" args.preferPremium args.formatSelector env)
                (filter_extractor_args args.extraArgs)
                (available_clients args.youtubeClient) (k + 1)).2.length)).1,
          { cmd := build_command env args
              (resolve_format "youtube" args.preferPremium args.formatSelector env),
            client := args.youtubeClient, trySabr := args.trySabr,
            outcome := env.oracle k }
            :: (try_clients env args
                (resolve_format "youtube" args.preferPremium args.formatSelector env)
                (filter_extractor_args args.extraArgs)
                (available_clients args.youtubeClient) (k + 1)).2
            ++ (download_video_nf env
                (sabrRetryArgs args
                  (resolve_format "youtube" args.preferPremium args.formatSelector env)
                  (filter_extractor_args args.extraArgs))
                (k + 1 + (try_clients env args
                    (resolve_format "youtube" args.preferPremium args.formatSelector env)
                    (filter_extractor_args args.extraArgs)
                    (available_clients args.youtubeClient) (k + 1)).2.length)).2) := by
    simp only [download_video, hplat, hout, hfb, hns, hsabr, Option.getD_some,
      beq_self_eq_true, Bool.true_and, Bool.true_or, Bool.and_true, Bool.not_false,
      Bool.and_self, if_true, ite_true, hfail, Bool.false_eq_true, if_false, ite_false]
  refine ⟨by rw [hmain], ?_, rfl, rfl, rfl⟩
  rw [hmain]
  simp only [List.length_cons, List.length_append, download_video_nf_length]
  omega

/-- C6 witness: the theorem applied to the concrete scenario where every
invocation fails as streaming-restricted — the orchestrator's result is
the single streaming-mode attempt's, after nine attempts in total. -/
theorem c6_witness :
    (download_video envSabrFail baseArgs 0).1
      = (download_video_nf envSabrFail
          (sabrRetryArgs baseArgs
            (resolve_format "youtube" baseArgs.preferPremium baseArgs.formatSelector envSabrFail)
            (filter_extractor_args baseArgs.extraArgs))
          (0 + 1 + (try_clients envSabrFail baseArgs
              (resolve_format "youtube" baseArgs.preferPremium baseArgs.formatSelector envSabrFail)
              (filter_extractor_args baseArgs.extraArgs)
              (available_clients baseArgs.youtubeClient) (0 + 1)).2.length)).1 ∧
    (download_video envSabrFail baseArgs 0).2.length
      = 1 + (try_clients envSabrFail baseArgs
          (resolve_format "youtube" baseArgs.preferPremium baseArgs.formatSelector envSabrFail)
          (filter_extractor_args baseArgs.extraArgs)
          (available_clients baseArgs.youtubeClient) (0 + 1)).2.length + 1 ∧
    (sabrRetryArgs baseArgs
        (resolve_format "youtube" baseArgs.preferPremium baseArgs.formatSelector envSabrFail)
        (filter_extractor_args baseArgs.extraArgs)).trySabr = true ∧
    (sabrRetryArgs baseArgs
        (resolve_format "youtube" baseArgs.preferPremium baseArgs.formatSelector envSabrFail)
        (filter_extractor_args baseArgs.extraArgs)).tryFallbackClients = false ∧
    (sabrRetryArgs baseArgs
        (resolve_format "youtube" baseArgs.preferPremium baseArgs.formatSelector envSabrFail)
        (filter_extractor_args baseArgs.extraArgs)).youtubeClient
      = some (clientOrWeb baseArgs.youtubeClient) :=
  c6_theorem envSabrFail baseArgs 0 "only SABR formats" (by decide) rfl rfl rfl
    (by decide) (by decide)

/-! ## Claim C7: premium format selection -/

/-- One scan step never lowers the best height seen so far. -/
theorem premiumStep_le (st : Option String × Nat) (line : List Char) :
    st.2 ≤ (premiumStep st line).2 := by
  unfold premiumStep
  split
  · exact Nat.le_refl _
  · split
    · exact Nat.le_refl _
    · split
      · rename_i hgt
        exact Nat.le_of_lt hgt
      · exact Nat.le_refl _

/-- The scan never lowers the best height. -/
theorem premium_foldl_le (lines : List (List Char)) (s0 : Option String × Nat) :
    s0.2 ≤ (lines.foldl premiumStep s0).2 := by
  induction lines generalizing s0 with
  | nil => exact Nat.le_refl _
  | cons l t ih =>
    simp only [List.foldl_cons]
    exact Nat.le_trans (premiumStep_le s0 l) (ih _)

/-- Each step either keeps the state or selects the current line, which is
then marked, parses an identifier, and strictly raises the height. -/
theorem premiumStep_cases (st : Option String × Nat) (line : List Char) :
    premiumStep st line = st ∨
    (containsSub line "Premium".toList = true ∧
      ∃ fid, idMatch line = some fid ∧ heightOf line > st.2 ∧
        premiumStep st line = (some fid, heightOf line)) := by
  unfold premiumStep
  split
  · exact Or.inl rfl
  · rename_i hc
    split
    · exact Or.inl rfl
    · rename_i fid hid
      split
      · rename_i hgt
        exact Or.inr ⟨by simpa using hc, fid, hid, hgt, rfl⟩
      · exact Or.inl rfl

/-- Every marked line with a parsed identifier has height at most the
scan's final best height. -/
theorem premium_foldl_height (lines : List (List Char)) (s0 : Option String × Nat) :
    ∀ line ∈ lines, containsSub line "Premium".toList = true →
      ∀ fid, idMatch line = some fid →
        heightOf line ≤ (lines.foldl premiumStep s0).2 := by
  induction lines generalizing s0 with
  | nil => intro line h; exact absurd h (List.not_mem_nil _)
  | cons l t ih =>
    intro line hmem hmark fid hid
    simp only [List.foldl_cons]
    rcases List.mem_cons.mp hmem with rfl | hmem2
    · have h1 : heightOf line ≤ (premiumStep s0 line).2 := by
        unfold premiumStep
        rw [hmark, hid]
        simp only [Bool.not_true, Bool.false_eq_true, if_false, ite_false]
        split
        · exact Nat.le_refl _
        · rename_i hgt
          exact Nat.le_of_not_lt hgt
      exact Nat.le_trans h1 (premium_foldl_le t _)
    · exact ih _ line hmem2 hmark fid hid

/-- The scan's result is its initial state, or was selected from some
marked line of the listing whose identifier and height it carries. -/
theorem premium_foldl_origin (lines : List (List Char)) (s0 : Option String × Nat) :
    lines.foldl premiumStep s0 = s0 ∨
    ∃ line ∈ lines, containsSub line "Premium".toList = true ∧
      idMatch line = (lines.foldl premiumStep s0).1 ∧
      heightOf line = (lines.foldl premiumStep s0).2 := by
  induction lines generalizing s0 with
  | nil => exact Or.inl rfl
  | cons l t ih =>
    simp only [List.foldl_cons]
    rcases ih (premiumStep s0 l) with h | h
    · rcases premiumStep_cases s0 l with hs | ⟨hmark, fid, hid, _, hsel⟩
      · rw [hs] at h ⊢
        exact Or.inl h
      · refine Or.inr ⟨l, List.mem_cons_self l t, hmark, ?_, ?_⟩
        · rw [h, hsel, hid]
        · rw [h, hsel]
    · obtain ⟨line, hm, hmark, h1, h2⟩ := h
      exact Or.inr ⟨line, List.mem_cons_of_mem l hm, hmark, h1, h2⟩

/-- C7: whenever the premium scan resolves a selector, that selector is
`<id>+bestaudio/best` for the identifier of a marked listing line whose
parsed height is greatest among all marked lines that parse; on the
scenario listing holding `137  1920x1080 ... Premium` the resolved
selector is `137+bestaudio/best`; and when the listing query fails, or no
marked line parses a positive height, the static default selector chain is
used with no error. -/
theorem c7_theorem :
    (∀ (ok : Bool) (out sel : String),
        check_premium_formats (ok, out) = some sel →
        ∃ line ∈ splitLines out.toList,
          containsSub line "Premium".toList = true ∧
          ∃ fid, idMatch line = some fid ∧ sel = fid ++ "+bestaudio/best" ∧
            ∀ line2 ∈ splitLines out.toList,
              containsSub line2 "Premium".toList = true →
              ∀ fid2, idMatch line2 = some fid2 →
                heightOf line2 ≤ heightOf line) ∧
    resolve_format "youtube" true none envPremium = "137+bestaudio/best" ∧
    resolve_format "youtube" true none envNoListing = DEFAULT_FORMAT_SELECTOR ∧
    resolve_format "youtube" true none
        { env0 with formatListing := (true, "999 Premium no resolution") }
      = DEFAULT_FORMAT_SELECTOR := by
  refine ⟨?_, by decide, by decide, by decide⟩
  intro ok out sel h
  unfold check_premium_formats at h
  split at h
  · exact absurd h (by simp)
  · split at h
    · exact absurd h (by simp)
    · rename_i fid heq
      split at h
      · exact absurd h (by simp)
      · have hsel : sel = fid ++ "+bestaudio/best" := by
          have := Option.some.inj h
          exact this.symm
        rcases premium_foldl_origin (splitLines out.toList) (none, 0) with ho | ho
        · rw [ho] at heq
          exact absurd heq (by simp)
        · obtain ⟨line, hm, hmark, h1, h2⟩ := ho
          refine ⟨line, hm, hmark, fid, ?_, hsel, ?_⟩
          · rw [h1, heq]
          · intro line2 hm2 hmark2 fid2 hid2
            have hb := premium_foldl_height (splitLines out.toList) (none, 0)
              line2 hm2 hmark2 fid2 hid2
            rw [← h2] at hb
            exact hb

/-- C7 witness: the general statement applied to the scenario listing —
the selected line is marked, its identifier yields the resolved selector,
and its height dominates every marked line. -/
theorem c7_witness :
    ∃ line ∈ splitLines ("ID  EXT RESOLUTION\n616  1280x720 mp4 720p Premium\n137  1920x1080 mp4 1080p Premium\n").toList,
      containsSub line "Premium".toList = true ∧
      ∃ fid, idMatch line = some fid ∧
        "137+bestaudio/best" = fid ++ "+bestaudio/best" ∧
        ∀ line2 ∈ splitLines ("ID  EXT RESOLUTION\n616  1280x720 mp4 720p Premium\n137  1920x1080 mp4 1080p Premium\n").toList,
          containsSub line2 "Premium".toList = true →
          ∀ fid2, idMatch line2 = some fid2 → heightOf line2 ≤ heightOf line :=
  c7_theorem.1 true
    "ID  EXT RESOLUTION\n616  1280x720 mp4 720p Premium\n137  1920x1080 mp4 1080p Premium\n"
    "137+bestaudio/best" (by decide)

/-! ## Claim C10: the token-provider mode is inert -/

/-- The command builder never reads the token-provider mode. -/
theorem build_command_pot_mode (env : Env) (a : Args) (m : Option String) (fmt : String) :
    build_command env { a with potProviderMode := m } fmt = build_command env a fmt := rfl

/-- A nested attempt's behaviour never reads the token-provider mode. -/
theorem download_video_nf_pot_mode (env : Env) (a : Args) (m : Option String) (k : Nat) :
    download_video_nf env { a with potProviderMode := m } k
      = download_video_nf env a k := rfl

/-- The fallback-loop requests carry the mode through unchanged. -/
theorem nestedClientArgs_pot_mode (a : Args) (m : Option String) (fmt : String)
    (f : List String) (c : String) :
    nestedClientArgs { a with potProviderMode := m } fmt f c
      = { nestedClientArgs a fmt f c with potProviderMode := m } := rfl

/-- The streaming-mode retry request carries the mode through unchanged. -/
theorem sabrRetryArgs_pot_mode (a : Args) (m : Option String) (fmt : String)
    (f : List String) :
    sabrRetryArgs { a with potProviderMode := m } fmt f
      = { sabrRetryArgs a fmt f with potProviderMode := m } := rfl

/-- The fallback loop's outcome never reads the token-provider mode. -/
theorem try_clients_pot_mode (env : Env) (a : Args) (fmt : String) (f : List String)
    (m : Option String) (cs : List String) (k : Nat) :
    try_clients env { a with potProviderMode := m } fmt f cs k
      = try_clients env a fmt f cs k := by
  induction cs generalizing k with
  | nil => rfl
  | cons c rest ih =>
    simp only [try_clients, nestedClientArgs_pot_mode, download_video_nf_pot_mode, ih]

/-- The orchestrator's whole outcome never reads the token-provider mode. -/
theorem download_video_pot_mode (env : Env) (a : Args) (m : Option String) (k : Nat) :
    download_video env { a with potProviderMode := m } k = download_video env a k := by
  cases h : env.oracle k <;>
    simp [download_video, h, build_command_pot_mode, try_clients_pot_mode,
      sabrRetryArgs_pot_mode, download_video_nf_pot_mode]

/-- C10: the token-provider mode validation returns no extractor-argument
string on any path; the built command and the whole download outcome are
identical across any two mode overrides — the mode influences only
warning output. -/
theorem c10_theorem :
    (∀ (plugin_installed server_running : Bool) (url : String) (mode : Option String),
        validate_pot_provider plugin_installed server_running url mode = none) ∧
    (∀ (env : Env) (a : Args) (fmt : String) (m : Option String),
        build_command env { a with potProviderMode := m } fmt = build_command env a fmt) ∧
    (∀ (env : Env) (a : Args) (m₁ m₂ : Option String) (k : Nat),
        download_video env { a with potProviderMode := m₁ } k
          = download_video env { a with potProviderMode := m₂ } k) := by
  refine ⟨?_, ?_, ?_⟩
  · intro plugin_installed server_running url mode
    unfold validate_pot_provider
    split
    · rfl
    · split
      · rfl
      · split
        · rfl
        · split <;> rfl
  · intro env a fmt m
    exact build_command_pot_mode env a m fmt
  · intro env a m₁ m₂ k
    exact (download_video_pot_mode env a m₁ k).trans
      (download_video_pot_mode env a m₂ k).symm
